import Mathlib

/-!
Verification of the digital-ally backend (main.py): complaint-letter
generation and session-scoped support chat.  The Python source is embedded
shallowly: Python strings become `String`, `Optional[str]` becomes
`Option String`, the in-memory `chat_histories` dict becomes a functional
map `String → Option (List ChatTurn)`, and the external generative model
becomes an injected function `String → Except String String` (error value =
the raised exception's message).  Python truthiness on optional strings
(`if not x`, `x or y`, `all([...])`) is embedded by `truthy`.
-/

namespace DigitalAlly

/-! ## Python string primitives -/

/-- Value of an optional string field (validated fields are only read when
present; Python would interpolate the actual string). -/
def getS : Option String → String
  | some s => s
  | none => ""

/-- Python truthiness of an optional string: `None` and `""` are falsy. -/
def truthy : Option String → Bool
  | some s => s != ""
  | none => false

/-- Embedding of Python `sep.join(parts)`. -/
def pyJoin (sep : String) : List String → String
  | [] => ""
  | [s] => s
  | s :: rest => s ++ sep ++ pyJoin sep rest

/-- Fuelled worker for Python `str.split(sep)` (non-empty separator,
left-to-right, non-overlapping).  Fuel bounds the number of consumed
characters so the recursion is structural. -/
def splitSepFuel (sep : List Char) : Nat → List Char → List (List Char)
  | 0, l => [l]
  | _ + 1, [] => [[]]
  | fuel + 1, c :: cs =>
    if sep.isPrefixOf (c :: cs) ∧ sep ≠ [] then
      [] :: splitSepFuel sep fuel (List.drop (sep.length - 1) cs)
    else
      match splitSepFuel sep fuel cs with
      | [] => [[c]]
      | h :: t => (c :: h) :: t

/-- Embedding of Python `s.split(sep)` for a non-empty separator. -/
def pySplit (s sep : String) : List String :=
  (splitSepFuel sep.data s.data.length s.data).map (fun l => String.mk l)

/-- Python `str.isspace` characters relevant to `str.split()` with no
arguments. -/
def pySpace (c : Char) : Bool :=
  c = ' ' || c = '\t' || c = '\n' || c = '\r' || c = '\x0b' || c = '\x0c'

/-- Worker for Python `s.split()`: split on runs of whitespace, dropping
empty items.  `acc` is the current word, reversed. -/
def wordsAux : List Char → List Char → List (List Char)
  | [], acc => if acc.isEmpty then [] else [acc.reverse]
  | c :: cs, acc =>
    if pySpace c then
      if acc.isEmpty then wordsAux cs [] else acc.reverse :: wordsAux cs []
    else wordsAux cs (c :: acc)

/-- Embedding of Python `s.split()` (whitespace split, no empty items). -/
def pyWords (s : String) : List String :=
  (wordsAux s.data []).map (fun l => String.mk l)

/-! ## Line structure of rendered text

`splitLines` mirrors how a rendered document breaks into lines at `'\n'`
(Python `s.split("\n")`, at the character level). -/

def lineBreak (c : Char) (acc : List (List Char)) : List (List Char) :=
  if c = '\n' then [] :: acc else
    match acc with
    | [] => [[c]]
    | h :: t => (c :: h) :: t

def splitLines : List Char → List (List Char)
  | [] => [[]]
  | c :: cs => lineBreak c (splitLines cs)

/-- A line is a "numbered request line" when it starts with digits followed
by a period and a space, like the template's request items. -/
def isNumberedLine (l : List Char) : Bool :=
  let ds := l.takeWhile (fun c => Char.isDigit c)
  !ds.isEmpty && ((l.drop ds.length).take 2 == ['.', ' '])

/-- Number of numbered lines in a chunk of text. -/
def cntL (l : List Char) : Nat := (splitLines l).countP (fun x => isNumberedLine x)

/-! ## Data model (main.py: Pydantic models, Config, in-memory stores) -/

/-- `filing_type: Literal["self", "third_party"]`. -/
inductive FilingType
  | self
  | third_party
  deriving DecidableEq, BEq

/-- `class ComplaintInfo(BaseModel)`. -/
structure ComplaintInfo where
  filing_type : FilingType
  complainant_name : String
  complainant_address : String
  complainant_contact : Option String
  complainant_email : Option String
  victim_name : Option String
  victim_address : Option String
  relationship_to_victim : Option String
  filing_authority : String
  filing_authority_address : String
  incident_details : String
  date_of_incident : String
  time_of_incident : String
  location_of_incident : String
  injuries_sustained : Option String
  witness_information : Option String
  evidence_description : Option String
  deriving DecidableEq

/-- `class SupportMessage(BaseModel)`. -/
structure SupportMessage where
  message : String
  session_id : String
  deriving DecidableEq

/-- `class Config`: environment-sourced settings (defaults:
`1-800-799-SAFE`, `www.womenslaw.org`, debug off, `production`). -/
structure Config where
  EMERGENCY_HOTLINE : String
  LEGAL_AID_URL : String
  DEBUG : Bool
  ENVIRONMENT : String
  deriving DecidableEq

/-- One stored chat message: `{"text": ..., "isUser": ...}`. -/
structure ChatTurn where
  text : String
  isUser : Bool
  deriving DecidableEq

/-- `chat_histories: Dict[str, List[dict]]`, as a functional map. -/
def ChatState : Type := String → Option (List ChatTurn)

def emptyChatState : ChatState := fun _ => none

/-- Outcome of an HTTP endpoint call: a success value, or an
`HTTPException(status_code, detail)` surfaced to the client. -/
inductive ApiResult (α : Type)
  | ok (val : α)
  | err (status : Nat) (detail : String)
  deriving DecidableEq

/-- Success body of `POST /api/generate-complaint`. -/
structure ComplaintResponse where
  complaint_letter : String
  safety_reminder : String
  next_steps : List String
  emergency : String
  legal_aid : String
  deriving DecidableEq

/-- Success body of `POST /api/support-chat`. -/
structure ChatResponse where
  response : String
  session_id : String
  deriving DecidableEq

/-! ## Letter template engine (main.py lines 82-239) -/

/-- `create_contact_section` (main.py lines 127-133): append the email then
the phone number when truthy, join with newlines, placeholder when empty. -/
def create_contact_section (info : ComplaintInfo) : String :=
  let contact_parts :=
    (if truthy info.complainant_email then [getS info.complainant_email] else []) ++
      (if truthy info.complainant_contact then [getS info.complainant_contact] else [])
  if contact_parts.isEmpty then "Contact information provided separately"
  else pyJoin ("\n") contact_parts

/-- `create_injuries_section` (main.py lines 135-142). -/
def create_injuries_section (injuries : Option String) : String :=
  if !truthy injuries then ""
  else "\nInjuries Sustained:\n\n" ++ getS injuries ++ "\n"

/-- `format_evidence_description` (main.py lines 144-152). -/
def format_evidence_description (evidence : Option String) : String :=
  if !truthy evidence then "Documentation is available and can be provided upon request."
  else
    let evidence_points := pySplit (getS evidence) (", ")
    if evidence_points.length = 1 then getS evidence
    else pyJoin ("\n") (evidence_points.map (fun point => "- " ++ point))

/-- `authority_title` (main.py line 192): last whitespace token of the
authority name when it has more than one token, else a generic title. -/
def authority_title (info : ComplaintInfo) : String :=
  let ws := pyWords info.filing_authority
  if ws.length > 1 then ws.getLastD "" else "Sir/Madam"

/-- `filing_capacity` (main.py lines 166-168 and 176). -/
def filing_capacity (info : ComplaintInfo) : String :=
  if info.filing_type = FilingType.third_party then
    "I am filing this complaint on behalf of " ++ getS info.victim_name ++
      ", \nas their " ++ getS info.relationship_to_victim ++
      ". I have direct knowledge of the incidents \ndescribed herein and am deeply concerned for their safety and well-being."
  else "I am the direct victim of the incidents described in this complaint."

/-- `victim_information` (main.py lines 170-174 and 177). -/
def victim_information (info : ComplaintInfo) : String :=
  if info.filing_type = FilingType.third_party then
    "\nVictim Information:\nName: " ++ getS info.victim_name ++
      "\nAddress: " ++ getS info.victim_address ++ "\n"
  else ""

/-- `evidence_section` (main.py lines 179-182). -/
def evidence_section (info : ComplaintInfo) : String :=
  "\nSupporting Evidence:\n" ++ format_evidence_description info.evidence_description ++ "\n"

/-- `witness_section` (main.py lines 184-186); `x or y` is Python truthiness. -/
def witness_section (info : ComplaintInfo) : String :=
  "\nWitness Information:\n" ++
    (if truthy info.witness_information then getS info.witness_information
     else "Witness details can be provided as needed with appropriate privacy protections.")

/-- `confidentiality_statement` (main.py lines 188-190). -/
def confidentiality_statement : String :=
  "\nI request that my personal information and the details of this complaint be handled with strict confidentiality \nto ensure my safety and protection."

/-- `additional_requests` (main.py line 210). -/
def additional_requests (info : ComplaintInfo) : String :=
  if info.filing_type = FilingType.self then
    "5. Provision of necessary support services and resources"
  else ""

/-- `contact_details` (main.py line 212). -/
def contact_details (info : ComplaintInfo) : String :=
  if truthy info.complainant_contact then "Contact: " ++ getS info.complainant_contact
  else ""

/-- Fixed lines of the letter template, named so proofs can treat them as
atoms. -/
def subject_line : String := "Subject: Formal Domestic Violence Complaint"

def incident_hdr_line : String := "Incident Details:"

def request_hdr_line : String := "Request for Action:"

def req1_line : String := "1. Implementation of immediate protective measures to ensure safety"

def req2_line : String := "2. Thorough investigation of the reported incidents"

def req3_line : String := "3. Appropriate legal action based on the investigation findings"

def req4_line : String := "4. Regular updates on the case progress"

def thanks_line : String := "Thank you for your immediate attention to this serious matter."

def respect_line : String := "Respectfully,"

/-- Template line `Dear {authority_title},`. -/
def salutation_line (info : ComplaintInfo) : String :=
  "Dear " ++ authority_title info ++ ","

/-- Template line
`I am writing to formally report ... {incident_location}. {filing_capacity}`. -/
def opening_line (info : ComplaintInfo) : String :=
  "I am writing to formally report a case of domestic violence that occurred on " ++
    info.date_of_incident ++ " at " ++ info.time_of_incident ++ " in " ++
    info.location_of_incident ++ ". " ++ filing_capacity info

/-- `COMPLAINT_LETTER_TEMPLATE.format(...)` (main.py lines 82-125 and
194-214): the fixed document skeleton with every placeholder substituted.
`current_date` stands for `datetime.now().strftime("%B %d, %Y")`.  Written
as one concatenation per template line (newline separators explicit). -/
def letter_content (info : ComplaintInfo) (current_date : String) : String :=
  "\n" ++ current_date ++ "\n" ++
    "\n" ++ info.complainant_name ++ "\n" ++ info.complainant_address ++ "\n" ++
    create_contact_section info ++ "\n" ++
    "\n" ++ info.filing_authority ++ "\n" ++ info.filing_authority_address ++ "\n" ++
    "\n" ++ subject_line ++ "\n" ++
    "\n" ++ salutation_line info ++ "\n" ++
    "\n" ++ opening_line info ++ "\n" ++
    "\n" ++ incident_hdr_line ++ "\n" ++
    "\n" ++ info.incident_details ++ "\n" ++
    "\n" ++ create_injuries_section info.injuries_sustained ++ "\n" ++
    "\n" ++ evidence_section info ++ "\n" ++
    "\n" ++ witness_section info ++ "\n" ++
    "\n" ++ request_hdr_line ++ "\n" ++
    "\n" ++ req1_line ++ "\n" ++
    req2_line ++ "\n" ++
    req3_line ++ "\n" ++
    req4_line ++ "\n" ++
    additional_requests info ++ "\n" ++
    "\n" ++ confidentiality_statement ++ "\n" ++
    "\n" ++ thanks_line ++ "\n" ++
    "\n" ++ respect_line ++ "\n" ++ info.complainant_name ++ "\n" ++
    contact_details info ++ "\n" ++
    "\n" ++ victim_information info ++ "\n"

/-- The third-party validation check (main.py lines 157-160):
`not all([victim_name, victim_address, relationship_to_victim])`. -/
def missing_third_party_fields (info : ComplaintInfo) : Bool :=
  info.filing_type == FilingType.third_party &&
    !(truthy info.victim_name && truthy info.victim_address &&
      truthy info.relationship_to_victim)

/-- `POST /api/generate-complaint` (main.py lines 154-239).  The whole
handler body runs inside `try: ... except Exception as e:`; the
`HTTPException(status_code=400, ...)` raised for missing third-party fields
is an `Exception`, so the blanket `except` catches it and re-raises a 500
(with `str(e)`, i.e. `"400: <detail>"`, in debug mode, else the generic
safety message). -/
def generate_complaint (cfg : Config) (info : ComplaintInfo) (current_date : String) :
    ApiResult ComplaintResponse :=
  let attempt : Except (Nat × String) ComplaintResponse :=
    if missing_third_party_fields info then
      Except.error (400, "Third-party complaints require victim name, address, and relationship details")
    else
      Except.ok
        { complaint_letter := letter_content info current_date
          safety_reminder := "Please keep a copy of this document in a secure location."
          next_steps :=
            ["Review all information for accuracy",
             "Make multiple copies for your records",
             "Consider seeking legal counsel",
             "Create a safety plan",
             "Keep all related documentation"]
          emergency := cfg.EMERGENCY_HOTLINE
          legal_aid := cfg.LEGAL_AID_URL }
  match attempt with
  | Except.ok r => ApiResult.ok r
  | Except.error e =>
    ApiResult.err 500
      (if cfg.DEBUG then toString e.1 ++ ": " ++ e.2
       else "We encountered an issue processing your request. If you\x27re in immediate danger, please contact emergency services.")

/-! ## Chat prompt composer and support-chat endpoint (main.py lines 61-79, 241-285) -/

/-- `SUPPORT_CHAT_PROMPT` up to the `{history}` placeholder. -/
def promptHead : String :=
  "\nYou are a compassionate and supportive chatbot designed to assist individuals affected by domestic violence, Dont hallucinate too much for things like \"Hi\" and \"Hello\" and reply with \"Hello how can i help you\" for these. The response should be short and to the point but affectionate and a bit long when needed. Your main goal is to provide empathetic, actionable advice while ensuring the user\x27s safety. you dont need to provide texts in bold. Always:\n\n1. Avoid generix responses and validate their feelings and provide emotional support. Reply as per context and if its something besides talking about facing violence say that you are a support chatbot and you dont have idea about what the user is talking about.\n2. Offer clear, actionable steps to enhance their safety (like creating a safety plan).\n3. Suggest available resources (such as hotlines or legal aid) if appropriate.\n4. Respond in a way that feels personal and caring.\n5. Respect their autonomy; don’t pressure them into taking actions they’re uncomfortable with.\n6. Remind them that they’re not alone, and that support is available but dont reply that everytime.\n7. Provide them with support hotlines numbers from NEPAL to seek for help. Make sure the helplines are strictly from nepal.\n\n\nPrevious conversation:\n"

/-- `SUPPORT_CHAT_PROMPT` between `{history}` and `{message}`. -/
def promptMid : String := "\n\nUser message: "

/-- `SUPPORT_CHAT_PROMPT` after the `{message}` placeholder (the template
has a trailing space right after it). -/
def promptTail : String :=
  " \n\nBased on the user\x27s message and context from the previous conversation, provide a warm, specific, and practical response. Focus on helping the user feel supported, offering resources or steps if appropriate, and acknowledging their strength and courage:\n"

/-- One history entry rendered for the prompt (main.py line 253):
`f"{'User' if msg['isUser'] else 'Assistant'}: {msg['text']}"`. -/
def format_turn (t : ChatTurn) : String :=
  (if t.isUser then "User" else "Assistant") ++ ": " ++ t.text

/-- `history_text` (main.py lines 252-255): render the last 5 turns
(`history[-5:]`, i.e. drop all but the last 5, order preserved) and join
with newlines. -/
def history_text (history : List ChatTurn) : String :=
  pyJoin ("\n") ((history.drop (history.length - 5)).map format_turn)

/-- `SUPPORT_CHAT_PROMPT.format(history=..., message=...)` (main.py
lines 258-261). -/
def support_chat_prompt (history : List ChatTurn) (message : String) : String :=
  promptHead ++ history_text history ++ promptMid ++ message ++ promptTail

/-- `POST /api/support-chat` (main.py lines 241-279).  `gen` is the external
model collaborator (`model.generate_content`); an `Except.error` value is a
raised exception carrying its message.  Returns the HTTP result and the
updated `chat_histories` state. -/
def get_support_chat (cfg : Config) (gen : String → Except String String)
    (st : ChatState) (m : SupportMessage) : ApiResult ChatResponse × ChatState :=
  let history := (st m.session_id).getD []
  let ensured : ChatState := fun s => if s = m.session_id then some history else st s
  let prompt := support_chat_prompt history m.message
  match gen prompt with
  | Except.ok reply =>
    (ApiResult.ok { response := reply, session_id := m.session_id },
     fun s =>
       if s = m.session_id then
         some (history ++ [{ text := m.message, isUser := true },
                           { text := reply, isUser := false }])
       else st s)
  | Except.error e =>
    (ApiResult.err 500
       (if cfg.DEBUG then e
        else "We\x27re having trouble processing your message. If you need immediate help, please call " ++ cfg.EMERGENCY_HOTLINE),
     ensured)

/-- `GET /api/chat-history/{session_id}` (main.py lines 281-285): the
`messages` list of the response (empty for an unknown session id). -/
def get_chat_history (st : ChatState) (session_id : String) : List ChatTurn :=
  (st session_id).getD []

/-- A sequence of successful exchanges on one session: each pair is
(user message, model reply), the collaborator succeeding every time. -/
def run_exchanges (cfg : Config) (sid : String) (pairs : List (String × String)) : ChatState :=
  pairs.foldl
    (fun st p => (get_support_chat cfg (fun _ => Except.ok p.2) st { message := p.1, session_id := sid }).2)
    emptyChatState

/-- An arbitrary trace of chat requests: each step carries the session id,
the user message, and the collaborator's outcome for that call. -/
def run_trace (cfg : Config) (steps : List (String × String × Except String String)) : ChatState :=
  steps.foldl
    (fun st s => (get_support_chat cfg (fun _ => s.2.2) st { message := s.2.1, session_id := s.1 }).2)
    emptyChatState

/-! ## Sample data for closed statements -/

def cfg_prod : Config :=
  { EMERGENCY_HOTLINE := "1-800-799-SAFE", LEGAL_AID_URL := "www.womenslaw.org",
    DEBUG := false, ENVIRONMENT := "production" }

def cfg_debug : Config :=
  { EMERGENCY_HOTLINE := "1-800-799-SAFE", LEGAL_AID_URL := "www.womenslaw.org",
    DEBUG := true, ENVIRONMENT := "production" }

/-- A third-party complaint with every victim field missing. -/
def rec_c1 : ComplaintInfo :=
  { filing_type := FilingType.third_party
    complainant_name := "Jane Doe"
    complainant_address := "12 Elm Street, Springfield"
    complainant_contact := some "555-0100"
    complainant_email := none
    victim_name := none
    victim_address := none
    relationship_to_victim := none
    filing_authority := "Officer Smith"
    filing_authority_address := "1 Police Plaza"
    incident_details := "An incident occurred."
    date_of_incident := "2024-01-01"
    time_of_incident := "10:00"
    location_of_incident := "Springfield"
    injuries_sustained := none
    witness_information := none
    evidence_description := none }

/-- A model collaborator that always raises. -/
def gen_fail : String → Except String String := fun _ => Except.error "division by zero"

def msg_hello : SupportMessage := { message := "hello", session_id := "s1" }

/-- A free-text input that occupies single lines of the letter without
itself looking like a numbered request line or the victim-information
header.  The letter-shape claims quantify over records whose fields are
plain in this sense. -/
def plainStr (s : String) : Prop :=
  '\n' ∉ s.data ∧ isNumberedLine s.data = false ∧ s ≠ "Victim Information:"

/-- Every free-text input of the letter (the date stamp and each string or
optional-string field of the record) is plain. -/
def plainRecord (info : ComplaintInfo) (d : String) : Prop :=
  plainStr d ∧ plainStr info.complainant_name ∧ plainStr info.complainant_address ∧
    plainStr (getS info.complainant_contact) ∧ plainStr (getS info.complainant_email) ∧
    plainStr info.filing_authority ∧ plainStr info.filing_authority_address ∧
    plainStr info.incident_details ∧ plainStr info.date_of_incident ∧
    plainStr info.time_of_incident ∧ plainStr info.location_of_incident ∧
    plainStr (getS info.injuries_sustained) ∧ plainStr (getS info.witness_information) ∧
    plainStr (getS info.evidence_description) ∧ plainStr (getS info.victim_name) ∧
    plainStr (getS info.victim_address) ∧ plainStr (getS info.relationship_to_victim)

/-- The data-model invariant: a third-party record carries truthy victim
name, address, and relationship. -/
def validRecord (info : ComplaintInfo) : Prop :=
  info.filing_type = FilingType.third_party →
    truthy info.victim_name = true ∧ truthy info.victim_address = true ∧
      truthy info.relationship_to_victim = true

/-- A complete self-filed complaint. -/
def rec_self : ComplaintInfo :=
  { filing_type := FilingType.self
    complainant_name := "Jane Doe"
    complainant_address := "12 Elm Street, Springfield"
    complainant_contact := some "555-0100"
    complainant_email := some "jane@example.com"
    victim_name := none
    victim_address := none
    relationship_to_victim := none
    filing_authority := "Officer Smith"
    filing_authority_address := "1 Police Plaza"
    incident_details := "An incident occurred at my home."
    date_of_incident := "2024-01-01"
    time_of_incident := "10:00"
    location_of_incident := "Springfield"
    injuries_sustained := some "Bruises"
    witness_information := some "A neighbour"
    evidence_description := some "Photos, Messages" }

/-- A complete third-party complaint. -/
def rec_third : ComplaintInfo :=
  { rec_self with
    filing_type := FilingType.third_party
    victim_name := some "Mary Roe"
    victim_address := some "34 Oak Avenue, Springfield"
    relationship_to_victim := some "sister" }

def sample_date : String := "October 12, 2026"

theorem splitLines_ne_nil (l : List Char) : splitLines l ≠ [] := by
  cases l with
  | nil => simp [splitLines]
  | cons c cs =>
    simp only [splitLines, lineBreak]
    split
    · simp
    · split
      · simp
      · simp

theorem splitLines_nil : splitLines [] = [[]] := rfl

theorem splitLines_cons_nl (l : List Char) :
    splitLines ('\n' :: l) = [] :: splitLines l := by
  simp [splitLines, lineBreak]

theorem splitLines_cons_ne (c : Char) (l : List Char) (h : c ≠ '\n') :
    splitLines (c :: l) = (c :: (splitLines l).headI) :: (splitLines l).tail := by
  cases hsl : splitLines l with
  | nil => exact absurd hsl (splitLines_ne_nil l)
  | cons a t =>
    simp only [splitLines, lineBreak, if_neg h, hsl, List.headI, List.tail]

/-- A newline splits the surrounding text into independent line lists. -/
theorem splitLines_append_nl (a b : List Char) :
    splitLines (a ++ '\n' :: b) = splitLines a ++ splitLines b := by
  induction a with
  | nil => simp [splitLines_cons_nl, splitLines_nil]
  | cons c cs ih =>
    by_cases hc : c = '\n'
    · subst hc
      rw [List.cons_append, splitLines_cons_nl, splitLines_cons_nl, ih, List.cons_append]
    · rw [List.cons_append, splitLines_cons_ne c _ hc, splitLines_cons_ne c _ hc, ih]
      cases hsl : splitLines cs with
      | nil => exact absurd hsl (splitLines_ne_nil cs)
      | cons x t => simp

theorem splitLines_noNl (l : List Char) (h : '\n' ∉ l) : splitLines l = [l] := by
  induction l with
  | nil => rfl
  | cons c cs ih =>
    have hc : c ≠ '\n' := fun hh => h (hh ▸ List.mem_cons_self c cs)
    have hcs : '\n' ∉ cs := fun hh => h (List.mem_cons_of_mem c hh)
    rw [splitLines_cons_ne c cs hc, ih hcs]
    rfl

theorem isNumberedLine_nil : isNumberedLine [] = false := rfl

theorem cntL_nil : cntL [] = 0 := rfl

theorem cntL_cons_nl (b : List Char) : cntL ('\n' :: b) = cntL b := by
  simp [cntL, splitLines_cons_nl, List.countP_cons, isNumberedLine_nil]

theorem cntL_append_nl (a b : List Char) : cntL (a ++ '\n' :: b) = cntL a + cntL b := by
  simp [cntL, splitLines_append_nl, List.countP_append]

theorem cntL_noNl (l : List Char) (h : '\n' ∉ l) :
    cntL l = if isNumberedLine l then 1 else 0 := by
  simp [cntL, splitLines_noNl l h, List.countP_cons]

theorem cntL_noNl_zero (l : List Char) (h : '\n' ∉ l) (h2 : isNumberedLine l = false) :
    cntL l = 0 := by
  rw [cntL_noNl l h, h2]
  rfl

/-- Membership distribution for line lists. -/
theorem mem_splitLines_append_nl (x a b : List Char) :
    x ∈ splitLines (a ++ '\n' :: b) ↔ x ∈ splitLines a ∨ x ∈ splitLines b := by
  rw [splitLines_append_nl]
  exact List.mem_append

theorem mem_splitLines_cons_nl (x b : List Char) :
    x ∈ splitLines ('\n' :: b) ↔ x = [] ∨ x ∈ splitLines b := by
  rw [splitLines_cons_nl]
  simp

theorem mem_splitLines_noNl (x l : List Char) (h : '\n' ∉ l) :
    x ∈ splitLines l ↔ x = l := by
  rw [splitLines_noNl l h]
  simp

/-! ## Generic helper lemmas -/

theorem isInfix_of_suf {α : Type} {l t : List α} (h : l <:+ t) : l <:+: t := by
  obtain ⟨s, hs⟩ := h
  exact ⟨s, [], by simp [hs]⟩

theorem isInfix_of_pre {α : Type} {l t : List α} (h : l <+: t) : l <:+: t := by
  obtain ⟨s, hs⟩ := h
  exact ⟨[], s, by simp [hs]⟩

theorem isInfix_append_left {α : Type} {x a : List α} (b : List α) (h : x <:+: a) :
    x <:+: a ++ b := by
  obtain ⟨s, t, rfl⟩ := h
  exact ⟨s, t ++ b, by simp⟩

theorem isInfix_append_right {α : Type} {x b : List α} (a : List α) (h : x <:+: b) :
    x <:+: a ++ b := by
  obtain ⟨s, t, rfl⟩ := h
  exact ⟨a ++ s, t, by simp⟩

theorem isInfix_cons_of {α : Type} {x t : List α} (c : α) (h : x <:+: t) :
    x <:+: c :: t := by
  obtain ⟨s, u, rfl⟩ := h
  exact ⟨c :: s, u, rfl⟩

theorem data_append (s t : String) : (s ++ t).data = s.data ++ t.data := rfl

theorem nl_data : ("\n" : String).data = ['\n'] := rfl

theorem noNl_append {a b : List Char} (ha : '\n' ∉ a) (hb : '\n' ∉ b) :
    '\n' ∉ a ++ b := by
  intro h
  rcases List.mem_append.mp h with h | h
  · exact ha h
  · exact hb h

theorem getLastD_mem {α : Type} (xs : List α) : ∀ d, xs ≠ [] → xs.getLastD d ∈ xs := by
  induction xs with
  | nil => intro d h; exact absurd rfl h
  | cons a l ih =>
    intro d _
    rw [List.getLastD_cons]
    cases l with
    | nil => simp [List.getLastD]
    | cons b m => exact List.mem_cons_of_mem a (ih a (by simp))

/-- Every chunk produced by the fuelled splitter draws its characters from
the input. -/
theorem splitSepFuel_chars (sep : List Char) (f : Nat) :
    ∀ l p, p ∈ splitSepFuel sep f l → ∀ c ∈ p, c ∈ l := by
  induction f with
  | zero =>
    intro l p hp c hc
    simp only [splitSepFuel, List.mem_singleton] at hp
    exact hp ▸ hc
  | succ f ih =>
    intro l p hp c hc
    cases l with
    | nil =>
      simp only [splitSepFuel, List.mem_singleton] at hp
      subst hp
      simp at hc
    | cons x xs =>
      by_cases hpre : sep.isPrefixOf (x :: xs) ∧ sep ≠ []
      · rw [splitSepFuel, if_pos hpre] at hp
        rcases List.mem_cons.mp hp with h | h
        · subst h; simp at hc
        · exact List.mem_cons_of_mem x
            (List.mem_of_mem_drop (ih _ p h c hc))
      · rw [splitSepFuel, if_neg hpre] at hp
        cases hrec : splitSepFuel sep f xs with
        | nil =>
          rw [hrec] at hp
          simp only [List.mem_singleton] at hp
          subst hp
          rcases List.mem_singleton.mp hc with rfl
          exact List.mem_cons_self _ _
        | cons h t =>
          rw [hrec] at hp
          rcases List.mem_cons.mp hp with h1 | h1
          · subst h1
            rcases List.mem_cons.mp hc with rfl | h2
            · exact List.mem_cons_self _ _
            · exact List.mem_cons_of_mem x
                (ih xs h (by rw [hrec]; exact List.mem_cons_self _ _) c h2)
          · exact List.mem_cons_of_mem x (ih xs p (by rw [hrec]; exact List.mem_cons_of_mem _ h1) c hc)

theorem pySplit_noNl (s sep : String) (h : '\n' ∉ s.data) :
    ∀ p ∈ pySplit s sep, '\n' ∉ p.data := by
  intro p hp hc
  simp only [pySplit, List.mem_map] at hp
  obtain ⟨l, hl, rfl⟩ := hp
  exact h (splitSepFuel_chars sep.data s.data.length s.data l hl '\n' hc)

/-- Every word produced by `wordsAux` draws its characters from the input
or the accumulator. -/
theorem wordsAux_chars (l : List Char) :
    ∀ acc w, w ∈ wordsAux l acc → ∀ c ∈ w, c ∈ l ∨ c ∈ acc := by
  induction l with
  | nil =>
    intro acc w hw c hc
    rw [wordsAux] at hw
    by_cases ha : acc.isEmpty
    · rw [if_pos ha] at hw
      simp at hw
    · rw [if_neg ha] at hw
      rcases List.mem_singleton.mp hw with rfl
      exact Or.inr (List.mem_reverse.mp hc)
  | cons x xs ih =>
    intro acc w hw c hc
    by_cases hx : pySpace x
    · rw [wordsAux, if_pos hx] at hw
      by_cases ha : acc.isEmpty
      · rw [if_pos ha] at hw
        rcases ih [] w hw c hc with h | h
        · exact Or.inl (List.mem_cons_of_mem x h)
        · simp at h
      · rw [if_neg ha] at hw
        rcases List.mem_cons.mp hw with h | h
        · subst h
          exact Or.inr (List.mem_reverse.mp hc)
        · rcases ih [] w h c hc with h2 | h2
          · exact Or.inl (List.mem_cons_of_mem x h2)
          · simp at h2
    · rw [wordsAux, if_neg hx] at hw
      rcases ih (x :: acc) w hw c hc with h | h
      · exact Or.inl (List.mem_cons_of_mem x h)
      · rcases List.mem_cons.mp h with rfl | h2
        · exact Or.inl (List.mem_cons_self _ _)
        · exact Or.inr h2

/-- The authority title is a whitespace-free token of the authority name
(or the fixed fallback), so it never carries a newline. -/
theorem authority_title_noNl (info : ComplaintInfo)
    (h : '\n' ∉ info.filing_authority.data) : '\n' ∉ (authority_title info).data := by
  by_cases hlen : (pyWords info.filing_authority).length > 1
  · have key : ∀ w ∈ pyWords info.filing_authority, '\n' ∉ w.data := by
      intro w hw hc
      simp only [pyWords, List.mem_map] at hw
      obtain ⟨lw, hlw, rfl⟩ := hw
      rcases wordsAux_chars info.filing_authority.data [] lw hlw '\n' hc with h2 | h2
      · exact h h2
      · simp at h2
    have hne : pyWords info.filing_authority ≠ [] := by
      intro hnil
      rw [hnil] at hlen
      simp at hlen
    simp only [authority_title, hlen, if_true]
    exact key _ (getLastD_mem _ "" hne)
  · simp only [authority_title, hlen, if_false]
    decide

theorem noNl_subject : '\n' ∉ subject_line.data := by decide

theorem noNl_incident_hdr : '\n' ∉ incident_hdr_line.data := by decide

theorem noNl_request_hdr : '\n' ∉ request_hdr_line.data := by decide

theorem noNl_req1 : '\n' ∉ req1_line.data := by decide

theorem noNl_req2 : '\n' ∉ req2_line.data := by decide

theorem noNl_req3 : '\n' ∉ req3_line.data := by decide

theorem noNl_req4 : '\n' ∉ req4_line.data := by decide

theorem noNl_thanks : '\n' ∉ thanks_line.data := by decide

theorem noNl_respect : '\n' ∉ respect_line.data := by decide

/-- Master decomposition: the rendered letter's line list, with the
variable sections left symbolic, for any record whose stand-alone free-text
fields carry no newline. -/
theorem letter_lines (info : ComplaintInfo) (d : String)
    (hd : '\n' ∉ d.data) (hname : '\n' ∉ info.complainant_name.data)
    (haddr : '\n' ∉ info.complainant_address.data)
    (hauth : '\n' ∉ info.filing_authority.data)
    (hauthaddr : '\n' ∉ info.filing_authority_address.data)
    (hinc : '\n' ∉ info.incident_details.data) :
    splitLines (letter_content info d).data =
      [] :: d.data :: [] :: info.complainant_name.data :: info.complainant_address.data ::
        (splitLines (create_contact_section info).data ++
          [] :: info.filing_authority.data :: info.filing_authority_address.data :: [] ::
            subject_line.data :: [] ::
            (splitLines (salutation_line info).data ++
              [] :: (splitLines (opening_line info).data ++
                [] :: incident_hdr_line.data :: [] ::
                  info.incident_details.data :: [] ::
                  (splitLines (create_injuries_section info.injuries_sustained).data ++
                    [] :: (splitLines (evidence_section info).data ++
                      [] :: (splitLines (witness_section info).data ++
                        [] :: request_hdr_line.data :: [] ::
                          req1_line.data ::
                          req2_line.data ::
                          req3_line.data ::
                          req4_line.data ::
                          (splitLines (additional_requests info).data ++
                            [] :: (splitLines confidentiality_statement.data ++
                              [] :: thanks_line.data :: [] ::
                                respect_line.data :: info.complainant_name.data ::
                                (splitLines (contact_details info).data ++
                                  [] :: (splitLines (victim_information info).data ++ [[]])))))))))) := by
  set_option maxRecDepth 4000 in
  simp only [letter_content, data_append, nl_data, List.append_assoc, List.singleton_append,
    splitLines_cons_nl, splitLines_append_nl, splitLines_nil,
    splitLines_noNl _ hd, splitLines_noNl _ hname, splitLines_noNl _ haddr,
    splitLines_noNl _ hauth, splitLines_noNl _ hauthaddr, splitLines_noNl _ hinc,
    splitLines_noNl _ noNl_subject, splitLines_noNl _ noNl_incident_hdr,
    splitLines_noNl _ noNl_request_hdr, splitLines_noNl _ noNl_req1,
    splitLines_noNl _ noNl_req2, splitLines_noNl _ noNl_req3,
    splitLines_noNl _ noNl_req4, splitLines_noNl _ noNl_thanks,
    splitLines_noNl _ noNl_respect, List.cons_append, List.nil_append]

theorem string_ne_of_data_ne {s t : String} (h : s.data ≠ t.data) : s ≠ t :=
  fun he => h (he ▸ rfl)

theorem data_ne_of_string_ne {s t : String} (h : s ≠ t) : s.data ≠ t.data :=
  fun he => h (String.ext he)

/-- The support-chat endpoint touches no session other than the one in the
request (main.py lines 245-267). -/
theorem support_chat_other_session (cfg : Config) (gen : String → Except String String)
    (st : ChatState) (m : SupportMessage) (sid : String) (h : sid ≠ m.session_id) :
    (get_support_chat cfg gen st m).2 sid = st sid := by
  cases hgen : gen (support_chat_prompt ((st m.session_id).getD []) m.message) with
  | ok reply => simp [get_support_chat, hgen, h]
  | error e => simp [get_support_chat, hgen, h]

/-- On a successful exchange the endpoint appends exactly the user turn and
the reply turn to the requested session (main.py lines 263-267). -/
theorem support_chat_success_append (cfg : Config) (gen : String → Except String String)
    (st : ChatState) (m : SupportMessage) (reply : String)
    (h : gen (support_chat_prompt ((st m.session_id).getD []) m.message) = Except.ok reply) :
    get_chat_history (get_support_chat cfg gen st m).2 m.session_id =
      get_chat_history st m.session_id ++
        [{ text := m.message, isUser := true }, { text := reply, isUser := false }] := by
  simp [get_support_chat, h, get_chat_history]

/-! ## Per-section line facts for the letter -/

/-- The contact section contributes no numbered line and no
victim-information header line. -/
theorem contact_section_lines (info : ComplaintInfo)
    (he : plainStr (getS info.complainant_email))
    (hp : plainStr (getS info.complainant_contact)) :
    (splitLines (create_contact_section info).data).countP (fun x => isNumberedLine x) = 0 ∧
      ("Victim Information:" : String).data ∉ splitLines (create_contact_section info).data := by
  obtain ⟨he1, he2, he3⟩ := he
  obtain ⟨hp1, hp2, hp3⟩ := hp
  have he3d := (data_ne_of_string_ne he3).symm
  have hp3d := (data_ne_of_string_ne hp3).symm
  cases t1 : truthy info.complainant_email <;> cases t2 : truthy info.complainant_contact <;>
    simp only [create_contact_section, t1, t2, Bool.false_eq_true, if_false, if_true,
      List.singleton_append, List.nil_append, List.append_nil, List.isEmpty_nil,
      List.isEmpty_cons, pyJoin]
  · decide
  · rw [splitLines_noNl _ hp1]
    simp [hp2, hp3d]
  · rw [splitLines_noNl _ he1]
    simp [he2, he3d]
  · simp only [data_append, nl_data, List.append_assoc, List.singleton_append,
      splitLines_append_nl]
    rw [splitLines_noNl _ he1, splitLines_noNl _ hp1]
    simp [he2, hp2, he3d, hp3d, List.countP_cons]

theorem heads_differ {a b : Char} {x y : List Char} (h : a ≠ b) : a :: x ≠ b :: y := by
  intro he
  injection he with h1 _
  exact h h1

/-- The injuries section contributes no numbered line and no
victim-information header line. -/
theorem injuries_section_lines (inj : Option String) (h : plainStr (getS inj)) :
    (splitLines (create_injuries_section inj).data).countP (fun x => isNumberedLine x) = 0 ∧
      ("Victim Information:" : String).data ∉ splitLines (create_injuries_section inj).data := by
  obtain ⟨h1, h2, h3⟩ := h
  have h3d := (data_ne_of_string_ne h3).symm
  cases t : truthy inj
  · simp only [create_injuries_section, t, Bool.not_false, if_true]
    decide
  · simp only [create_injuries_section, t, Bool.not_true, Bool.false_eq_true, if_false]
    rw [show ("\nInjuries Sustained:\n\n" ++ getS inj ++ "\n").data =
          '\n' :: (("Injuries Sustained:" : String).data ++
            '\n' :: '\n' :: ((getS inj).data ++ '\n' :: [])) from by
        simp [data_append, List.append_assoc]]
    rw [splitLines_cons_nl, splitLines_append_nl, splitLines_cons_nl, splitLines_append_nl,
      splitLines_noNl _ h1, splitLines_noNl _ (by decide : '\n' ∉ ("Injuries Sustained:" : String).data),
      splitLines_nil]
    constructor
    · simp [List.countP_append, List.countP_cons, h2, isNumberedLine_nil,
        (by decide : isNumberedLine ("Injuries Sustained:" : String).data = false)]
    · simp [List.mem_append, List.mem_cons, h3d,
        (by decide : ("Victim Information:" : String).data ≠ ("Injuries Sustained:" : String).data),
        (by decide : ("Victim Information:" : String).data ≠ [])]

/-- The witness section contributes no numbered line and no
victim-information header line. -/
theorem witness_section_lines (info : ComplaintInfo)
    (h : plainStr (getS info.witness_information)) :
    (splitLines (witness_section info).data).countP (fun x => isNumberedLine x) = 0 ∧
      ("Victim Information:" : String).data ∉ splitLines (witness_section info).data := by
  obtain ⟨h1, h2, h3⟩ := h
  have h3d := (data_ne_of_string_ne h3).symm
  cases t : truthy info.witness_information
  · simp only [witness_section, t, Bool.false_eq_true, if_false]
    decide
  · simp only [witness_section, t, if_true]
    rw [show ("\nWitness Information:\n" ++ getS info.witness_information).data =
          '\n' :: (("Witness Information:" : String).data ++
            '\n' :: (getS info.witness_information).data) from by
        simp [data_append, List.append_assoc]]
    rw [splitLines_cons_nl, splitLines_append_nl, splitLines_noNl _ h1,
      splitLines_noNl _ (by decide : '\n' ∉ ("Witness Information:" : String).data)]
    constructor
    · simp [List.countP_append, List.countP_cons, h2, isNumberedLine_nil,
        (by decide : isNumberedLine ("Witness Information:" : String).data = false)]
    · simp [List.mem_append, List.mem_cons, h3d,
        (by decide : ("Victim Information:" : String).data ≠ ("Witness Information:" : String).data),
        (by decide : ("Victim Information:" : String).data ≠ [])]

/-- The additional-requests line is the single numbered fifth request for a
self filing and empty otherwise. -/
theorem additional_requests_lines (info : ComplaintInfo) :
    (splitLines (additional_requests info).data).countP (fun x => isNumberedLine x) =
        (if info.filing_type = FilingType.self then 1 else 0) ∧
      ("Victim Information:" : String).data ∉ splitLines (additional_requests info).data := by
  cases hft : info.filing_type
  · simp only [additional_requests, hft]
    decide
  · simp only [additional_requests, hft]
    decide

theorem confidentiality_lines :
    (splitLines confidentiality_statement.data).countP (fun x => isNumberedLine x) = 0 ∧
      ("Victim Information:" : String).data ∉ splitLines confidentiality_statement.data := by
  set_option maxRecDepth 4000 in decide

/-- The contact-details closing line contributes no numbered line and no
victim-information header line. -/
theorem contact_details_lines (info : ComplaintInfo)
    (h : plainStr (getS info.complainant_contact)) :
    (splitLines (contact_details info).data).countP (fun x => isNumberedLine x) = 0 ∧
      ("Victim Information:" : String).data ∉ splitLines (contact_details info).data := by
  obtain ⟨h1, _, _⟩ := h
  cases t : truthy info.complainant_contact
  · simp only [contact_details, t, Bool.false_eq_true, if_false]
    decide
  · simp only [contact_details, t, if_true]
    have hnl : '\n' ∉ ("Contact: " ++ getS info.complainant_contact).data := by
      rw [data_append]
      exact noNl_append (by decide) h1
    rw [splitLines_noNl _ hnl]
    constructor
    · simp [List.countP_cons]
      rfl
    · simp only [List.mem_singleton, data_append]
      exact heads_differ (by decide)

/-- For a self filing the victim block is empty. -/
theorem victim_information_self (info : ComplaintInfo)
    (hft : info.filing_type = FilingType.self) : victim_information info = "" := by
  rw [victim_information, if_neg]
  rw [hft]
  exact fun h => FilingType.noConfusion h

/-- For a third-party filing the victim block is the header line, the name
line, and the address line, each on its own line. -/
theorem victim_information_third_lines (info : ComplaintInfo)
    (hvn : '\n' ∉ (getS info.victim_name).data)
    (hva : '\n' ∉ (getS info.victim_address).data)
    (hft : info.filing_type = FilingType.third_party) :
    splitLines (victim_information info).data =
      [[], ("Victim Information:" : String).data,
        ("Name: " : String).data ++ (getS info.victim_name).data,
        ("Address: " : String).data ++ (getS info.victim_address).data, []] := by
  rw [victim_information, if_pos hft]
  rw [show ("\nVictim Information:\nName: " ++ getS info.victim_name ++
        "\nAddress: " ++ getS info.victim_address ++ "\n").data =
      '\n' :: (("Victim Information:" : String).data ++
        '\n' :: ((("Name: " : String).data ++ (getS info.victim_name).data) ++
          '\n' :: ((("Address: " : String).data ++ (getS info.victim_address).data) ++
            '\n' :: []))) from by
    simp [data_append, List.append_assoc]]
  rw [splitLines_cons_nl, splitLines_append_nl, splitLines_append_nl, splitLines_append_nl,
    splitLines_nil,
    splitLines_noNl _ (by decide : '\n' ∉ ("Victim Information:" : String).data),
    splitLines_noNl _ (noNl_append (by decide : '\n' ∉ ("Name: " : String).data) hvn),
    splitLines_noNl _ (noNl_append (by decide : '\n' ∉ ("Address: " : String).data) hva)]
  rfl

/-- The salutation occupies a single non-numbered line distinct from the
victim-information header. -/
theorem salutation_lines (info : ComplaintInfo)
    (hauth : '\n' ∉ info.filing_authority.data) :
    splitLines (salutation_line info).data = [(salutation_line info).data] ∧
      isNumberedLine (salutation_line info).data = false ∧
      ("Victim Information:" : String).data ∉ splitLines (salutation_line info).data := by
  have hnl : '\n' ∉ (salutation_line info).data := by
    simp only [salutation_line, data_append]
    exact noNl_append (noNl_append (by decide) (authority_title_noNl info hauth)) (by decide)
  refine ⟨splitLines_noNl _ hnl, rfl, ?_⟩
  rw [splitLines_noNl _ hnl]
  simp only [List.mem_singleton, salutation_line, data_append, List.cons_append,
    List.append_assoc]
  exact heads_differ (by decide)

/-- The opening narrative line(s): no numbered line and no
victim-information header line, for either filing type. -/
theorem opening_lines (info : ComplaintInfo)
    (hdi : '\n' ∉ info.date_of_incident.data) (hti : '\n' ∉ info.time_of_incident.data)
    (hli : '\n' ∉ info.location_of_incident.data)
    (hvn : '\n' ∉ (getS info.victim_name).data)
    (hrel : '\n' ∉ (getS info.relationship_to_victim).data) :
    (splitLines (opening_line info).data).countP (fun x => isNumberedLine x) = 0 ∧
      ("Victim Information:" : String).data ∉ splitLines (opening_line info).data := by
  cases hft : info.filing_type
  · have hnl : '\n' ∉ (opening_line info).data := by
      rw [opening_line, filing_capacity, if_neg (by rw [hft]; exact fun h => FilingType.noConfusion h)]
      simp only [data_append]
      refine noNl_append ?_ (by decide)
      refine noNl_append ?_ (by decide)
      refine noNl_append ?_ hli
      refine noNl_append ?_ (by decide)
      refine noNl_append ?_ hti
      refine noNl_append ?_ (by decide)
      exact noNl_append (by decide) hdi
    rw [splitLines_noNl _ hnl]
    constructor
    · rfl
    · simp only [List.mem_singleton, opening_line, data_append, List.cons_append,
        List.append_assoc]
      exact heads_differ (by decide)
  · have hsplit : (opening_line info).data =
        (("I am writing to formally report a case of domestic violence that occurred on " : String).data ++
            info.date_of_incident.data ++ (" at " : String).data ++ info.time_of_incident.data ++
            (" in " : String).data ++ info.location_of_incident.data ++ (". " : String).data ++
            ("I am filing this complaint on behalf of " : String).data ++ (getS info.victim_name).data ++
            (", " : String).data) ++
          '\n' :: ((("as their " : String).data ++ (getS info.relationship_to_victim).data ++
              (". I have direct knowledge of the incidents " : String).data) ++
            '\n' :: ("described herein and am deeply concerned for their safety and well-being." : String).data) := by
      rw [opening_line, filing_capacity, if_pos hft]
      simp [data_append, List.append_assoc,
        show (", \nas their " : String).data =
            (", " : String).data ++ '\n' :: ("as their " : String).data from rfl,
        show (". I have direct knowledge of the incidents \ndescribed herein and am deeply concerned for their safety and well-being." : String).data =
            (". I have direct knowledge of the incidents " : String).data ++
              '\n' :: ("described herein and am deeply concerned for their safety and well-being." : String).data from rfl]
    have hA : '\n' ∉ (("I am writing to formally report a case of domestic violence that occurred on " : String).data ++
        info.date_of_incident.data ++ (" at " : String).data ++ info.time_of_incident.data ++
        (" in " : String).data ++ info.location_of_incident.data ++ (". " : String).data ++
        ("I am filing this complaint on behalf of " : String).data ++ (getS info.victim_name).data ++
        (", " : String).data) := by
      refine noNl_append ?_ (by decide)
      refine noNl_append ?_ hvn
      refine noNl_append ?_ (by decide)
      refine noNl_append ?_ (by decide)
      refine noNl_append ?_ hli
      refine noNl_append ?_ (by decide)
      refine noNl_append ?_ hti
      refine noNl_append ?_ (by decide)
      exact noNl_append (by decide) hdi
    have hB : '\n' ∉ (("as their " : String).data ++ (getS info.relationship_to_victim).data ++
        (". I have direct knowledge of the incidents " : String).data) := by
      refine noNl_append ?_ (by decide)
      exact noNl_append (by decide) hrel
    have hC : '\n' ∉ ("described herein and am deeply concerned for their safety and well-being." : String).data := by
      decide
    rw [hsplit, splitLines_append_nl, splitLines_append_nl, splitLines_noNl _ hA,
      splitLines_noNl _ hB, splitLines_noNl _ hC]
    constructor
    · rfl
    · simp

/-- Hyphen-bulleted evidence items contribute no numbered line and no
victim-information header line. -/
theorem bullet_lines (pts : List String) (h : ∀ p ∈ pts, '\n' ∉ p.data) :
    (splitLines (pyJoin ("\n") (pts.map (fun point => "- " ++ point))).data).countP
        (fun x => isNumberedLine x) = 0 ∧
      ("Victim Information:" : String).data ∉
        splitLines (pyJoin ("\n") (pts.map (fun point => "- " ++ point))).data := by
  induction pts with
  | nil => decide
  | cons p rest ih =>
    have hp : '\n' ∉ ("- " ++ p).data := by
      rw [data_append]
      exact noNl_append (by decide) (h p (List.mem_cons_self p rest))
    cases rest with
    | nil =>
      simp only [List.map_cons, List.map_nil, pyJoin]
      rw [splitLines_noNl _ hp]
      constructor
      · rfl
      · simp only [List.mem_singleton, data_append, List.cons_append]
        exact heads_differ (by decide)
    | cons q t =>
      have htail : ∀ x ∈ q :: t, '\n' ∉ x.data := fun x hx => h x (List.mem_cons_of_mem p hx)
      obtain ⟨ih1, ih2⟩ := ih htail
      simp only [List.map_cons] at ih1 ih2 ⊢
      rw [show pyJoin ("\n") (("- " ++ p) :: ("- " ++ q) :: t.map (fun point => "- " ++ point)) =
            ("- " ++ p) ++ "\n" ++ pyJoin ("\n") (("- " ++ q) :: t.map (fun point => "- " ++ point)) from rfl]
      rw [show (("- " ++ p) ++ "\n" ++ pyJoin ("\n") (("- " ++ q) :: t.map (fun point => "- " ++ point))).data =
            ("- " ++ p).data ++ '\n' ::
              (pyJoin ("\n") (("- " ++ q) :: t.map (fun point => "- " ++ point))).data from by
        simp [data_append, List.append_assoc]]
      rw [splitLines_append_nl, splitLines_noNl _ hp]
      constructor
      · simp only [List.singleton_append, List.countP_cons, ih1]
        have hb : isNumberedLine ('-' :: ' ' :: p.data) = false := rfl
        simp [hb]
      · simp only [List.singleton_append, List.mem_cons]
        rintro (he | he)
        · rw [data_append] at he
          simp only [List.cons_append] at he
          exact heads_differ (by decide) he
        · exact ih2 he

/-- The formatted evidence body contributes no numbered line and no
victim-information header line. -/
theorem format_evidence_lines (evidence : Option String) (h : plainStr (getS evidence)) :
    (splitLines (format_evidence_description evidence).data).countP
        (fun x => isNumberedLine x) = 0 ∧
      ("Victim Information:" : String).data ∉
        splitLines (format_evidence_description evidence).data := by
  obtain ⟨h1, h2, h3⟩ := h
  have h3d := (data_ne_of_string_ne h3).symm
  cases t : truthy evidence
  · simp only [format_evidence_description, t, Bool.not_false, if_true]
    decide
  · simp only [format_evidence_description, t, Bool.not_true, Bool.false_eq_true, if_false]
    by_cases hlen : (pySplit (getS evidence) (", ")).length = 1
    · simp only [hlen, if_true]
      rw [splitLines_noNl _ h1]
      simp [List.countP_cons, h2, h3d]
    · simp only [hlen, if_false]
      exact bullet_lines (pySplit (getS evidence) (", ")) (pySplit_noNl _ _ h1)

/-- The evidence section contributes no numbered line and no
victim-information header line. -/
theorem evidence_section_lines (info : ComplaintInfo)
    (h : plainStr (getS info.evidence_description)) :
    (splitLines (evidence_section info).data).countP (fun x => isNumberedLine x) = 0 ∧
      ("Victim Information:" : String).data ∉ splitLines (evidence_section info).data := by
  obtain ⟨hf1, hf2⟩ := format_evidence_lines info.evidence_description h
  rw [show (evidence_section info).data =
        '\n' :: (("Supporting Evidence:" : String).data ++
          '\n' :: ((format_evidence_description info.evidence_description).data ++ '\n' :: [])) from by
    simp [evidence_section, data_append, List.append_assoc]]
  rw [splitLines_cons_nl, splitLines_append_nl, splitLines_append_nl, splitLines_nil,
    splitLines_noNl _ (by decide : '\n' ∉ ("Supporting Evidence:" : String).data)]
  constructor
  · simp [List.countP_append, List.countP_cons, hf1, isNumberedLine_nil,
      (by decide : isNumberedLine ("Supporting Evidence:" : String).data = false)]
  · simp [List.mem_append, List.mem_cons, hf2,
      (by decide : ("Victim Information:" : String).data ≠ ("Supporting Evidence:" : String).data),
      (by decide : ("Victim Information:" : String).data ≠ [])]

set_option maxHeartbeats 1000000 in
/-- The filing-capacity narrative is a contiguous substring of the rendered
letter. -/
theorem fc_infix_letter (info : ComplaintInfo) (d : String) :
    (filing_capacity info).data <:+: (letter_content info d).data := by
  have hfo : (filing_capacity info).data <:+: (opening_line info).data := by
    refine isInfix_of_suf ⟨("I am writing to formally report a case of domestic violence that occurred on " ++
      info.date_of_incident ++ " at " ++ info.time_of_incident ++ " in " ++
      info.location_of_incident ++ ". ").data, ?_⟩
    rw [← data_append, opening_line]
  refine hfo.trans ⟨("\n" ++ d ++ "\n" ++ "\n" ++ info.complainant_name ++ "\n" ++
      info.complainant_address ++ "\n" ++ create_contact_section info ++ "\n" ++ "\n" ++
      info.filing_authority ++ "\n" ++ info.filing_authority_address ++ "\n" ++ "\n" ++
      subject_line ++ "\n" ++ "\n" ++ salutation_line info ++ "\n" ++ "\n").data,
    ("\n" ++ "\n" ++ incident_hdr_line ++ "\n" ++ "\n" ++ info.incident_details ++ "\n" ++ "\n" ++
      create_injuries_section info.injuries_sustained ++ "\n" ++ "\n" ++ evidence_section info ++
      "\n" ++ "\n" ++ witness_section info ++ "\n" ++ "\n" ++ request_hdr_line ++ "\n" ++ "\n" ++
      req1_line ++ "\n" ++ req2_line ++ "\n" ++ req3_line ++ "\n" ++ req4_line ++ "\n" ++
      additional_requests info ++ "\n" ++ "\n" ++ confidentiality_statement ++ "\n" ++ "\n" ++
      thanks_line ++ "\n" ++ "\n" ++ respect_line ++ "\n" ++ info.complainant_name ++ "\n" ++
      contact_details info ++ "\n" ++ "\n" ++ victim_information info ++ "\n").data, ?_⟩
  simp only [letter_content, data_append, List.append_assoc]

/-! ## Claims -/

/-- C7: for every valid complaint record (with plain single-line free-text
inputs), the rendered letter contains exactly 5 numbered request lines when
filing_type = self (the fifth being the provision-of-support-services
request at main.py line 210) and exactly 4 when filing_type = third_party. -/
theorem c7_numbered_request_lines (info : ComplaintInfo) (d : String)
    (hplain : plainRecord info d) (_hvalid : validRecord info) :
    (splitLines (letter_content info d).data).countP (fun x => isNumberedLine x) =
      if info.filing_type = FilingType.self then 5 else 4 := by
  obtain ⟨hpd, hpn, hpa, hpc, hpe, hpau, hpaa, hpi, hpdi, hpti, hpli, hpinj, hpw, hpev,
    hpvn, hpva, hprel⟩ := hplain
  obtain ⟨hcon, _⟩ := contact_section_lines info hpe hpc
  obtain ⟨hsal_eq, hsal_num, _⟩ := salutation_lines info hpau.1
  obtain ⟨hopen, _⟩ := opening_lines info hpdi.1 hpti.1 hpli.1 hpvn.1 hprel.1
  obtain ⟨hinj, _⟩ := injuries_section_lines info.injuries_sustained hpinj
  obtain ⟨hev, _⟩ := evidence_section_lines info hpev
  obtain ⟨hwit, _⟩ := witness_section_lines info hpw
  obtain ⟨hadd, _⟩ := additional_requests_lines info
  obtain ⟨hconf, _⟩ := confidentiality_lines
  obtain ⟨hcd, _⟩ := contact_details_lines info hpc
  have hN : ∀ l : List Char, isNumberedLine ('N' :: l) = false := fun _ => rfl
  have hA : ∀ l : List Char, isNumberedLine ('A' :: l) = false := fun _ => rfl
  have hV : ∀ l : List Char, isNumberedLine ('V' :: l) = false := fun _ => rfl
  rw [letter_lines info d hpd.1 hpn.1 hpa.1 hpau.1 hpaa.1 hpi.1, hsal_eq]
  cases hft : info.filing_type
  · rw [victim_information_self info hft]
    rw [hft] at hadd
    simp [List.countP_append, List.countP_cons, List.countP_nil, hcon, hopen, hinj, hev,
      hwit, hconf, hcd, hadd, hsal_num, isNumberedLine_nil, splitLines_nil,
      hpd.2.1, hpn.2.1, hpa.2.1, hpau.2.1, hpaa.2.1, hpi.2.1,
      (by decide : isNumberedLine subject_line.data = false),
      (by decide : isNumberedLine incident_hdr_line.data = false),
      (by decide : isNumberedLine request_hdr_line.data = false),
      (by decide : isNumberedLine req1_line.data = true),
      (by decide : isNumberedLine req2_line.data = true),
      (by decide : isNumberedLine req3_line.data = true),
      (by decide : isNumberedLine req4_line.data = true),
      (by decide : isNumberedLine thanks_line.data = false),
      (by decide : isNumberedLine respect_line.data = false)]
  · rw [victim_information_third_lines info hpvn.1 hpva.1 hft]
    rw [hft] at hadd
    simp [List.countP_append, List.countP_cons, List.countP_nil, hcon, hopen, hinj, hev,
      hwit, hconf, hcd, hadd, hsal_num, isNumberedLine_nil, hN, hA, hV,
      hpd.2.1, hpn.2.1, hpa.2.1, hpau.2.1, hpaa.2.1, hpi.2.1,
      (by decide : isNumberedLine subject_line.data = false),
      (by decide : isNumberedLine incident_hdr_line.data = false),
      (by decide : isNumberedLine request_hdr_line.data = false),
      (by decide : isNumberedLine req1_line.data = true),
      (by decide : isNumberedLine req2_line.data = true),
      (by decide : isNumberedLine req3_line.data = true),
      (by decide : isNumberedLine req4_line.data = true),
      (by decide : isNumberedLine thanks_line.data = false),
      (by decide : isNumberedLine respect_line.data = false)]

theorem rec_self_plain : plainRecord rec_self sample_date := by
  unfold plainRecord plainStr
  refine ⟨?_, ?_, ?_, ?_, ?_, ?_, ?_, ?_, ?_, ?_, ?_, ?_, ?_, ?_, ?_, ?_, ?_⟩ <;> decide

theorem rec_self_valid : validRecord rec_self := by
  unfold validRecord
  decide

theorem rec_third_plain : plainRecord rec_third sample_date := by
  unfold plainRecord plainStr
  refine ⟨?_, ?_, ?_, ?_, ?_, ?_, ?_, ?_, ?_, ?_, ?_, ?_, ?_, ?_, ?_, ?_, ?_⟩ <;> decide

theorem rec_third_valid : validRecord rec_third := by
  unfold validRecord
  decide

theorem c7_numbered_request_lines_witness :
    plainRecord rec_self sample_date ∧ validRecord rec_self ∧
      (splitLines (letter_content rec_self sample_date).data).countP
          (fun x => isNumberedLine x) =
        if rec_self.filing_type = FilingType.self then 5 else 4 :=
  ⟨rec_self_plain, rec_self_valid,
    c7_numbered_request_lines rec_self sample_date rec_self_plain rec_self_valid⟩

/-- C8: a valid self-filed letter carries the direct-victim phrasing and no
victim-information header line; a valid third-party letter carries the
on-behalf-of phrasing naming the victim and the relationship, and a victim
information block with the victim's name and address (main.py
lines 157-177). -/
theorem c8_filing_capacity_and_victim_block (info : ComplaintInfo) (d : String)
    (hplain : plainRecord info d) (_hvalid : validRecord info) :
    (info.filing_type = FilingType.self →
        ("I am the direct victim" : String).data <:+: (letter_content info d).data ∧
          ("Victim Information:" : String).data ∉ splitLines (letter_content info d).data) ∧
      (info.filing_type = FilingType.third_party →
        filing_capacity info =
            "I am filing this complaint on behalf of " ++ getS info.victim_name ++
              ", \nas their " ++ getS info.relationship_to_victim ++
              ". I have direct knowledge of the incidents \ndescribed herein and am deeply concerned for their safety and well-being." ∧
          (filing_capacity info).data <:+: (letter_content info d).data ∧
          ("Victim Information:" : String).data ∈ splitLines (letter_content info d).data ∧
          (("Name: " : String).data ++ (getS info.victim_name).data) ∈
            splitLines (letter_content info d).data ∧
          (("Address: " : String).data ++ (getS info.victim_address).data) ∈
            splitLines (letter_content info d).data) := by
  obtain ⟨hpd, hpn, hpa, hpc, hpe, hpau, hpaa, hpi, hpdi, hpti, hpli, hpinj, hpw, hpev,
    hpvn, hpva, hprel⟩ := hplain
  obtain ⟨_, hcon⟩ := contact_section_lines info hpe hpc
  obtain ⟨hsal_eq, _, hsal_mem⟩ := salutation_lines info hpau.1
  obtain ⟨_, hopen⟩ := opening_lines info hpdi.1 hpti.1 hpli.1 hpvn.1 hprel.1
  obtain ⟨_, hinj⟩ := injuries_section_lines info.injuries_sustained hpinj
  obtain ⟨_, hev⟩ := evidence_section_lines info hpev
  obtain ⟨_, hwit⟩ := witness_section_lines info hpw
  obtain ⟨_, hadd⟩ := additional_requests_lines info
  obtain ⟨_, hconf⟩ := confidentiality_lines
  obtain ⟨_, hcd⟩ := contact_details_lines info hpc
  constructor
  · intro hft
    constructor
    · have h1 : ("I am the direct victim" : String).data <+: (filing_capacity info).data := by
        rw [filing_capacity, if_neg (by rw [hft]; exact fun h => FilingType.noConfusion h)]
        decide
      exact (isInfix_of_pre h1).trans (fc_infix_letter info d)
    · rw [letter_lines info d hpd.1 hpn.1 hpa.1 hpau.1 hpaa.1 hpi.1,
        victim_information_self info hft]
      have hvnil : ("Victim Information:" : String).data ≠ ([] : List Char) := by decide
      simp [List.mem_append, List.mem_cons, splitLines_nil, hcon, hopen, hinj, hev, hwit,
        hadd, hconf, hcd, hsal_mem, hvnil,
        (data_ne_of_string_ne hpd.2.2).symm, (data_ne_of_string_ne hpn.2.2).symm,
        (data_ne_of_string_ne hpa.2.2).symm, (data_ne_of_string_ne hpau.2.2).symm,
        (data_ne_of_string_ne hpaa.2.2).symm, (data_ne_of_string_ne hpi.2.2).symm,
        (by decide : ("Victim Information:" : String).data ≠ subject_line.data),
        (by decide : ("Victim Information:" : String).data ≠ incident_hdr_line.data),
        (by decide : ("Victim Information:" : String).data ≠ request_hdr_line.data),
        (by decide : ("Victim Information:" : String).data ≠ req1_line.data),
        (by decide : ("Victim Information:" : String).data ≠ req2_line.data),
        (by decide : ("Victim Information:" : String).data ≠ req3_line.data),
        (by decide : ("Victim Information:" : String).data ≠ req4_line.data),
        (by decide : ("Victim Information:" : String).data ≠ thanks_line.data),
        (by decide : ("Victim Information:" : String).data ≠ respect_line.data)]
  · intro hft
    refine ⟨?_, fc_infix_letter info d, ?_, ?_, ?_⟩
    · rw [filing_capacity, if_pos hft]
    · rw [letter_lines info d hpd.1 hpn.1 hpa.1 hpau.1 hpaa.1 hpi.1,
        victim_information_third_lines info hpvn.1 hpva.1 hft]
      simp
    · rw [letter_lines info d hpd.1 hpn.1 hpa.1 hpau.1 hpaa.1 hpi.1,
        victim_information_third_lines info hpvn.1 hpva.1 hft]
      simp
    · rw [letter_lines info d hpd.1 hpn.1 hpa.1 hpau.1 hpaa.1 hpi.1,
        victim_information_third_lines info hpvn.1 hpva.1 hft]
      simp

theorem c8_filing_capacity_and_victim_block_witness :
    plainRecord rec_third sample_date ∧ validRecord rec_third ∧
      (filing_capacity rec_third =
          "I am filing this complaint on behalf of " ++ getS rec_third.victim_name ++
            ", \nas their " ++ getS rec_third.relationship_to_victim ++
            ". I have direct knowledge of the incidents \ndescribed herein and am deeply concerned for their safety and well-being." ∧
        (filing_capacity rec_third).data <:+: (letter_content rec_third sample_date).data ∧
        ("Victim Information:" : String).data ∈
          splitLines (letter_content rec_third sample_date).data ∧
        (("Name: " : String).data ++ (getS rec_third.victim_name).data) ∈
          splitLines (letter_content rec_third sample_date).data ∧
        (("Address: " : String).data ++ (getS rec_third.victim_address).data) ∈
          splitLines (letter_content rec_third sample_date).data) :=
  ⟨rec_third_plain, rec_third_valid,
    (c8_filing_capacity_and_victim_block rec_third sample_date
      rec_third_plain rec_third_valid).2 rfl⟩

/-- C1: the spec says a third-party complaint missing victim name, address,
or relationship must fail with a 400 MissingRequiredField validation error.
The code raises `HTTPException(400, ...)` (main.py lines 161-164), but that
raise happens inside the handler's `try:` block and `HTTPException` is an
`Exception`, so the blanket `except Exception` (line 233) catches it and
re-raises a 500 — the generic internal-error message in production, and
`str(e)` (`"400: <detail>"`) in debug mode.  No letter is produced, but the
surfaced status is 500, not the claimed 400. -/
theorem c1_missing_third_party_fields_yield_500 (d : String) :
    generate_complaint cfg_prod rec_c1 d =
        ApiResult.err 500 "We encountered an issue processing your request. If you\x27re in immediate danger, please contact emergency services." ∧
      generate_complaint cfg_debug rec_c1 d =
        ApiResult.err 500 "400: Third-party complaints require victim name, address, and relationship details" ∧
      ∀ r : ComplaintResponse, generate_complaint cfg_prod rec_c1 d ≠ ApiResult.ok r := by
  refine ⟨rfl, rfl, ?_⟩
  intro r h
  rw [show generate_complaint cfg_prod rec_c1 d =
      ApiResult.err 500 "We encountered an issue processing your request. If you\x27re in immediate danger, please contact emergency services." from rfl] at h
  exact ApiResult.noConfusion h

/-- C2 counterexample: with the debug flag enabled, a failing model call on
the support-chat endpoint returns the raw exception text (main.py
lines 274-275), which does not include the configured emergency hotline. -/
theorem c2_debug_failure_lacks_hotline :
    (get_support_chat cfg_debug gen_fail emptyChatState msg_hello).1 =
        ApiResult.err 500 "division by zero" ∧
      ¬ (cfg_debug.EMERGENCY_HOTLINE.data <:+: ("division by zero" : String).data) := by
  constructor
  · rfl
  · decide

/-- C2 (amended): when the debug flag is disabled, every failure of the
support-chat operation returns an error message that includes the emergency
hotline reference (main.py lines 276-279); with debug enabled the raw error
text is returned instead. -/
theorem c2_failure_message_carries_hotline (cfg : Config)
    (gen : String → Except String String) (st : ChatState) (m : SupportMessage)
    (e : String) (hdbg : cfg.DEBUG = false)
    (hfail : gen (support_chat_prompt ((st m.session_id).getD []) m.message) = Except.error e) :
    ∃ detail, (get_support_chat cfg gen st m).1 = ApiResult.err 500 detail ∧
      cfg.EMERGENCY_HOTLINE.data <:+: detail.data := by
  refine ⟨"We\x27re having trouble processing your message. If you need immediate help, please call " ++ cfg.EMERGENCY_HOTLINE, ?_, ?_⟩
  · simp [get_support_chat, hfail, hdbg]
  · exact isInfix_of_suf ⟨("We\x27re having trouble processing your message. If you need immediate help, please call " : String).data, rfl⟩

theorem c2_failure_message_carries_hotline_witness :
    cfg_prod.DEBUG = false ∧
      gen_fail (support_chat_prompt ((emptyChatState msg_hello.session_id).getD []) msg_hello.message) =
        Except.error "division by zero" ∧
      ∃ detail, (get_support_chat cfg_prod gen_fail emptyChatState msg_hello).1 =
          ApiResult.err 500 detail ∧
        cfg_prod.EMERGENCY_HOTLINE.data <:+: detail.data :=
  ⟨rfl, rfl,
    c2_failure_message_carries_hotline cfg_prod gen_fail emptyChatState msg_hello
      "division by zero" rfl rfl⟩

/-- C3: when the model collaborator fails, the chat history readable for
every session id after the request equals the history readable before it —
the failure path appends nothing (main.py lines 263-267 are skipped; the
lazily created empty entry for a new session reads back as the same empty
sequence). -/
theorem c3_failure_leaves_history_unchanged (cfg : Config)
    (gen : String → Except String String) (st : ChatState) (m : SupportMessage)
    (e : String)
    (hfail : gen (support_chat_prompt ((st m.session_id).getD []) m.message) = Except.error e) :
    ∀ sid, get_chat_history (get_support_chat cfg gen st m).2 sid = get_chat_history st sid := by
  intro sid
  by_cases h : sid = m.session_id
  · subst h
    simp [get_support_chat, hfail, get_chat_history]
  · simp [get_support_chat, hfail, get_chat_history, h]

theorem c3_failure_leaves_history_unchanged_witness :
    gen_fail (support_chat_prompt ((emptyChatState msg_hello.session_id).getD []) msg_hello.message) =
        Except.error "division by zero" ∧
      get_chat_history (get_support_chat cfg_prod gen_fail emptyChatState msg_hello).2 "s1" =
        get_chat_history emptyChatState "s1" :=
  ⟨rfl,
    c3_failure_leaves_history_unchanged cfg_prod gen_fail emptyChatState msg_hello
      "division by zero" rfl "s1"⟩

/-- C4: the composed prompt renders at most the last 5 history turns,
oldest first, each as `User: <text>` or `Assistant: <text>`, joined with
newlines; earlier turns do not influence the prompt (main.py
lines 252-261, `history[-5:]`). -/
theorem c4_prompt_uses_last_five_turns (message : String) (history : List ChatTurn) :
    history_text history =
        pyJoin ("\n") ((history.drop (history.length - 5)).map format_turn) ∧
      history.drop (history.length - 5) <:+ history ∧
      (history.drop (history.length - 5)).length ≤ 5 ∧
      support_chat_prompt history message =
        support_chat_prompt (history.drop (history.length - 5)) message ∧
      ∀ t : ChatTurn,
        format_turn t = (if t.isUser then "User: " else "Assistant: ") ++ t.text := by
  have hlen : (history.drop (history.length - 5)).length ≤ 5 := by
    rw [List.length_drop]
    omega
  refine ⟨rfl, List.drop_suffix _ _, hlen, ?_, ?_⟩
  · unfold support_chat_prompt
    have hsame : history_text (history.drop (history.length - 5)) = history_text history := by
      unfold history_text
      have h0 : (history.drop (history.length - 5)).length - 5 = 0 := by omega
      rw [h0, List.drop_zero]
    rw [hsame]
  · intro t
    unfold format_turn
    cases t.isUser <;> simp

/-- C5: every successful exchange appends exactly the user turn then the
reply turn; a session built from successful exchanges alone has alternating
`isUser` flags `true, false, true, false, ...`. -/
theorem c5_success_appends_user_then_reply :
    (∀ (cfg : Config) (gen : String → Except String String) (st : ChatState)
        (m : SupportMessage) (reply : String),
      gen (support_chat_prompt ((st m.session_id).getD []) m.message) = Except.ok reply →
        get_chat_history (get_support_chat cfg gen st m).2 m.session_id =
          get_chat_history st m.session_id ++
            [{ text := m.message, isUser := true }, { text := reply, isUser := false }]) ∧
      ∀ (cfg : Config) (sid : String) (pairs : List (String × String)),
        (get_chat_history (run_exchanges cfg sid pairs) sid).map (fun t => t.isUser) =
          (pairs.map (fun _ => [true, false])).flatten := by
  constructor
  · exact fun cfg gen st m reply h => support_chat_success_append cfg gen st m reply h
  · intro cfg sid pairs
    suffices h : ∀ (ps : List (String × String)) (st : ChatState),
        get_chat_history
            (ps.foldl (fun st p =>
              (get_support_chat cfg (fun _ => Except.ok p.2) st
                { message := p.1, session_id := sid }).2) st) sid =
          get_chat_history st sid ++
            (ps.map (fun p => [ChatTurn.mk p.1 true, ChatTurn.mk p.2 false])).flatten by
      rw [run_exchanges, h pairs emptyChatState]
      have hempty : get_chat_history emptyChatState sid = [] := rfl
      rw [hempty, List.nil_append]
      induction pairs with
      | nil => rfl
      | cons p ps ih => simp [ih]
    intro ps
    induction ps with
    | nil => intro st; simp
    | cons p ps ih =>
      intro st
      rw [List.foldl_cons, ih]
      rw [support_chat_success_append cfg (fun _ => Except.ok p.2) st
        { message := p.1, session_id := sid } p.2 rfl]
      simp

theorem c5_success_appends_user_then_reply_witness :
    ((fun _ => Except.ok "hi there") (support_chat_prompt ((emptyChatState msg_hello.session_id).getD []) msg_hello.message) =
          (Except.ok "hi there" : Except String String)) ∧
      get_chat_history
          (get_support_chat cfg_prod (fun _ => Except.ok "hi there") emptyChatState msg_hello).2
          msg_hello.session_id =
        [{ text := "hello", isUser := true }, { text := "hi there", isUser := false }] ∧
      (get_chat_history (run_exchanges cfg_prod "s1" [("a", "b"), ("c", "d")]) "s1").map
          (fun t => t.isUser) =
        [true, false, true, false] := by
  refine ⟨rfl, ?_, ?_⟩
  · exact c5_success_appends_user_then_reply.1 cfg_prod (fun _ => Except.ok "hi there")
      emptyChatState msg_hello "hi there" rfl
  · exact c5_success_appends_user_then_reply.2 cfg_prod "s1" [("a", "b"), ("c", "d")]

/-- C6: evidence formatting — an absent (or empty, which Python `not`
treats identically) `evidence_description` yields the fixed
documentation-available sentence; otherwise the value is split on the
two-character separator `", "`: a single item is emitted verbatim, several
items become hyphen-bulleted lines (main.py lines 144-152). -/
theorem c6_evidence_formatting (evidence : Option String) :
    (truthy evidence = false →
        format_evidence_description evidence =
          "Documentation is available and can be provided upon request.") ∧
      (truthy evidence = true → (pySplit (getS evidence) (", ")).length = 1 →
        format_evidence_description evidence = getS evidence) ∧
      (truthy evidence = true → (pySplit (getS evidence) (", ")).length ≠ 1 →
        format_evidence_description evidence =
          pyJoin ("\n") ((pySplit (getS evidence) (", ")).map (fun point => "- " ++ point))) ∧
      format_evidence_description (some ("A, B, C")) = "- A\n- B\n- C" ∧
      format_evidence_description (some ("A")) = "A" := by
  refine ⟨?_, ?_, ?_, by decide, by decide⟩
  · intro h
    simp [format_evidence_description, h]
  · intro h h1
    simp [format_evidence_description, h, h1]
  · intro h h1
    simp [format_evidence_description, h, h1]

theorem c6_evidence_formatting_witness :
    truthy (some ("A")) = true ∧
      (pySplit (getS (some ("A"))) (", ")).length = 1 ∧
      format_evidence_description (some ("A")) = getS (some ("A")) :=
  ⟨by decide, by decide, (c6_evidence_formatting (some ("A"))).2.1 (by decide) (by decide)⟩

/-- C9: the contact section joins the present email and phone (email first)
with a newline, emits the single present one alone, and falls back to the
fixed placeholder when neither is present (Python truthiness); the
operation is a total function (main.py lines 127-133). -/
theorem c9_contact_section (info : ComplaintInfo) :
    (truthy info.complainant_email = true → truthy info.complainant_contact = true →
        create_contact_section info =
          getS info.complainant_email ++ "\n" ++ getS info.complainant_contact) ∧
      (truthy info.complainant_email = true → truthy info.complainant_contact = false →
        create_contact_section info = getS info.complainant_email) ∧
      (truthy info.complainant_email = false → truthy info.complainant_contact = true →
        create_contact_section info = getS info.complainant_contact) ∧
      (truthy info.complainant_email = false → truthy info.complainant_contact = false →
        create_contact_section info = "Contact information provided separately") := by
  refine ⟨?_, ?_, ?_, ?_⟩ <;>
    · intro h1 h2
      simp [create_contact_section, h1, h2, pyJoin]

theorem c9_contact_section_witness :
    truthy (some "jane@example.com") = true ∧
      truthy (some "555-0100") = true ∧
      create_contact_section
          { rec_c1 with complainant_email := some "jane@example.com",
                        complainant_contact := some "555-0100" } =
        "jane@example.com" ++ "\n" ++ "555-0100" :=
  ⟨by decide, by decide,
    (c9_contact_section
        { rec_c1 with complainant_email := some "jane@example.com",
                      complainant_contact := some "555-0100" }).1
      (by decide) (by decide)⟩

/-- C10: reading the chat history of a session id never referenced by any
chat exchange yields the empty sequence (and is total, never an error); for
a stored session it yields the full stored sequence in insertion order,
with no truncation to the last 5 turns (main.py lines 281-285). -/
theorem c10_chat_history_read :
    (∀ (cfg : Config) (steps : List (String × String × Except String String)) (sid : String),
        sid ∉ steps.map (fun s => s.1) →
          get_chat_history (run_trace cfg steps) sid = []) ∧
      ∀ (st : ChatState) (sid : String) (stored : List ChatTurn),
        st sid = some stored → get_chat_history st sid = stored := by
  constructor
  · intro cfg steps sid hfresh
    suffices h : ∀ (ss : List (String × String × Except String String)) (st : ChatState),
        sid ∉ ss.map (fun s => s.1) →
          (ss.foldl (fun st s =>
              (get_support_chat cfg (fun _ => s.2.2) st
                { message := s.2.1, session_id := s.1 }).2) st) sid = st sid by
      rw [run_trace, get_chat_history, h steps emptyChatState hfresh]
      rfl
    intro ss
    induction ss with
    | nil => intro st _; rfl
    | cons s ss ih =>
      intro st hni
      rw [List.map_cons, List.mem_cons] at hni
      push_neg at hni
      rw [List.foldl_cons, ih _ hni.2,
        support_chat_other_session cfg (fun _ => s.2.2) st
          { message := s.2.1, session_id := s.1 } sid hni.1]
  · intro st sid stored h
    rw [get_chat_history, h]
    rfl

theorem c10_chat_history_read_witness :
    ("fresh" ∉ ([("s1", "a", Except.ok "b")] :
          List (String × String × Except String String)).map (fun s => s.1)) ∧
      get_chat_history (run_trace cfg_prod [("s1", "a", Except.ok "b")]) "fresh" = [] ∧
      get_chat_history
          (fun s => if s = "long" then
              some (List.replicate 9 { text := "t", isUser := true }) else none)
          "long" =
        List.replicate 9 { text := "t", isUser := true } :=
  ⟨by decide,
    c10_chat_history_read.1 cfg_prod [("s1", "a", Except.ok "b")] "fresh" (by decide),
    c10_chat_history_read.2
      (fun s => if s = "long" then
          some (List.replicate 9 { text := "t", isUser := true }) else none)
      "long" (List.replicate 9 { text := "t", isUser := true }) (by simp)⟩

end DigitalAlly
